import Mathlib

/-!
Verification development for the runner-lifecycle control plane of STRRL/gra.

The Go source is shallowly embedded: Kubernetes pods, the pod template
builder (`ToPodSpec`), the pod-to-runner projection (`PodToRunner`), the
status mapping (`MapPodStatusToRunnerStatus`), identifier allocation
(`generateRunnerID`), the service operations (`GetRunner`, `DeleteRunner`,
`ExecuteCommandStream`), the gRPC error mapping (`mapServiceError`), the
activity tracker (`UpdateLastActiveTime`, `GetInactiveRunners`,
`RemoveRunner`) and the cleanup service (`deleteInactiveRunner`).

Go maps (`map[string]string`) are embedded as association lists written
with last-write-wins insertion; Kubernetes resource quantities are embedded
as their milli-unit values (`resource.MustParse` is modelled by
`parseQuantity`, restricted to the literal formats the source uses);
RFC3339 timestamps are modelled as decimal-encoded epoch seconds (the
source's Format/Parse pair round-trips exactly, and no claim depends on
the textual format). Pod/container fields that no embedded operation reads
(volumes, security contexts, ports, probes) are omitted.
-/

namespace Gra

/-! ## Association-list maps (embedding of Go `map[string]string`) -/

/-- Lookup in an association list; first match wins (lists built with
`mapInsert` are duplicate-free, so this agrees with Go map indexing). -/
def mapLookup (m : List (String × String)) (k : String) : Option String :=
  match m with
  | [] => none
  | (k', v) :: rest => if k' = k then some v else mapLookup rest k

/-- Go map read `m[k]` without the comma-ok form: missing keys give `""`. -/
def mapGetD (m : List (String × String)) (k : String) : String :=
  (mapLookup m k).getD ""

/-- Go map write `m[k] = v`: removes any previous binding, appends the new one. -/
def mapInsert (m : List (String × String)) (k v : String) : List (String × String) :=
  (m.filter (fun p => p.1 ≠ k)) ++ [(k, v)]

/-! ## Kubernetes resource quantities -/

/-- A Kubernetes `resource.Quantity`, represented by its milli-unit value
(`MilliValue()` in the source). All quantities the source builds are
non-negative. -/
structure Quantity where
  milli : Nat
deriving DecidableEq, Repr

/-- `Quantity.Value()`: the unit value. Exact for every quantity the source
constructs (all are whole multiples of 1 except pure-milli CPU values, which
the source never reads with `Value()`). -/
def Quantity.value (q : Quantity) : Nat := q.milli / 1000

/-- Value of a (non-empty) digit run. -/
def digitsToNat (cs : List Char) : Nat :=
  cs.foldl (fun acc c => acc * 10 + (c.toNat - 48)) 0

/-- Decimal value of a reversed character list: `some` exactly when the
(unreversed) list is a non-empty all-digit run. -/
def digitsOfRev (rcs : List Char) : Option Nat :=
  let cs := rcs.reverse
  if cs ≠ [] ∧ cs.all Char.isDigit then some (digitsToNat cs) else none

/-- Embedding of `resource.MustParse`, restricted to the literal formats the
source uses: `<n>m` (milli), `<n>Mi`, `<n>Gi`, and plain integers. A parse
failure (which would panic in Go) is `none`. -/
def parseQuantity (s : String) : Option Quantity :=
  match s.toList.reverse with
  | 'i' :: 'G' :: rest => (digitsOfRev rest).map (fun n => ⟨n * 1073741824 * 1000⟩)
  | 'i' :: 'M' :: rest => (digitsOfRev rest).map (fun n => ⟨n * 1048576 * 1000⟩)
  | 'm' :: rest => (digitsOfRev rest).map (fun n => ⟨n⟩)
  | rest => (digitsOfRev rest).map (fun n => ⟨n * 1000⟩)

/-! ## Pods (the slice of `corev1.Pod` the service reads and writes) -/

/-- One entry of a container's `Env` list (`corev1.EnvVar`). -/
structure EnvVar where
  name : String
  value : String
deriving DecidableEq, Repr

/-- A container's resource request map (`corev1.ResourceList`): each field is
`some q` when the corresponding key is present. `requests.Cpu()` etc. return
the zero quantity for absent keys, which consumers model with `.getD ⟨0⟩`. -/
structure ResourceList where
  cpu : Option Quantity
  memory : Option Quantity
  ephemeralStorage : Option Quantity
deriving DecidableEq, Repr

/-- The slice of `corev1.Container` the embedded operations read. -/
structure Container where
  name : String
  image : String
  env : List EnvVar
  requests : Option ResourceList
  limits : Option ResourceList
  command : List String
  args : List String
deriving DecidableEq, Repr

/-- A pod condition (`corev1.PodCondition`); `type` and `status` are the
string constants of `corev1` (`"Ready"`, `"True"`, ...). -/
structure PodCondition where
  condType : String
  condStatus : String
deriving DecidableEq, Repr

/-- The slice of `corev1.Pod` the embedded operations read: metadata
(name, namespace, labels, annotations, finalizers, creation timestamp),
spec (regular containers, in order), and status (phase as its string
constant, conditions, start time, pod IP). -/
structure Pod where
  name : String
  nspace : String
  labels : List (String × String)
  annots : List (String × String)
  finalizers : List String
  creationTimestamp : Int
  containers : List Container
  phase : String
  conditions : List PodCondition
  startTime : Option Int
  podIP : String
deriving DecidableEq, Repr

/-! ## Domain model (`types.go`) -/

/-- `RunnerStatus` from `types.go` (a closed string enum in the source). -/
inductive RunnerStatus
  | unspecified
  | creating
  | running
  | stopping
  | stopped
  | error
deriving DecidableEq, Repr

/-- `ResourceRequirements` from `types.go`. -/
structure ResourceRequirements where
  cpuMillicores : Nat
  memoryMB : Nat
  storageGB : Nat
deriving DecidableEq, Repr

/-- `SSHDetails` from `types.go`. -/
structure SSHDetails where
  host : String
  port : Nat
  username : String
  publicKey : String
deriving DecidableEq, Repr

/-- `WorkspaceConfig`: the workspace descriptor consumed by
`ToPodSpec` in `src/unnamed/part_009` (bucket, endpoint, prefix, region,
read-only flag). `pfx` embeds the source's `Prefix` field. -/
structure WorkspaceConfig where
  bucket : String
  endpoint : String
  pfx : String
  region : String
  readOnly : Bool
deriving DecidableEq, Repr

/-- `Runner` from `types.go`; `workspace` is the optional workspace
descriptor carried by the revision of the domain model that
`src/unnamed/part_009` builds pods from. -/
structure Runner where
  id : String
  name : String
  status : RunnerStatus
  resources : Option ResourceRequirements
  createdAt : Int
  updatedAt : Int
  ssh : Option SSHDetails
  ipAddress : String
  env : List (String × String)
  workspace : Option WorkspaceConfig
deriving DecidableEq, Repr

/-- Domain errors from `types.go`. -/
inductive ServiceError
  | runnerNotFound
  | runnerNotRunning
  | invalidRequest
  | kubernetesAPI
  | commandExecution
  | resourceConflict
deriving DecidableEq, Repr

/-! ## Well-known constants (`kubernetes.go`) -/

/-- `RunnerIDAnnotation = RunnerAnnotationPrefix + "runner-id"`. -/
def runnerIDKey : String := "grad.io/runner-id"

/-- `RunnerNameAnnotation`. -/
def runnerNameKey : String := "grad.io/runner-name"

/-- `RunnerStatusAnnotation` (the cached status hint; never read back). -/
def runnerStatusKey : String := "grad.io/status"

/-- `RunnerCreatedAnnotation`. -/
def runnerCreatedKey : String := "grad.io/created-at"

/-- `RunnerSpecPreset.Small`: the hardcoded 2c2g40g preset. -/
structure RunnerSpec where
  cpu : String
  memory : String
  storage : String
  cpuMillicores : Nat
  memoryMB : Nat
  storageGB : Nat
deriving DecidableEq, Repr

/-- `RunnerSpecPreset.Small` from `kubernetes.go`. -/
def runnerSpecPresetSmall : RunnerSpec :=
  { cpu := "2000m", memory := "2Gi", storage := "40Gi"
    cpuMillicores := 2000, memoryMB := 2048, storageGB := 40 }

/-- `KubernetesConfig` from `kubernetes.go`. -/
structure KubernetesConfig where
  nspace : String
  runnerImage : String
  s3fsImage : String
  defaultCPU : String
  defaultMemory : String
  defaultStorage : String
  sshPort : Nat
deriving DecidableEq, Repr

/-- `DefaultKubernetesConfig()`. -/
def defaultKubernetesConfig : KubernetesConfig :=
  { nspace := "default"
    runnerImage := "ghcr.io/strrl/grad-runner:latest"
    s3fsImage := "ghcr.io/strrl/grad-runner-s3fs:latest"
    defaultCPU := "2000m"
    defaultMemory := "2Gi"
    defaultStorage := "40Gi"
    sshPort := 22 }

/-! ## Timestamp embedding -/

/-- `time.Format(time.RFC3339)`, modelled as decimal epoch seconds. -/
def formatTime (t : Int) : String := toString t

/-- `time.Parse(time.RFC3339, s)`, the exact inverse of `formatTime`. -/
def parseTime (s : String) : Option Int := s.toInt?

/-! ## `MapPodStatusToRunnerStatus` and `PodToRunner` -/

/-- `MapPodStatusToRunnerStatus` (pod_spec.go / part_009, identical in all
revisions): a pure function of the pod's phase and conditions. The Go
`switch` on the phase string and the loop over conditions (returning on the
first `Ready`/`True` condition) are embedded directly. -/
def MapPodStatusToRunnerStatus (pod : Pod) : RunnerStatus :=
  if pod.phase = "Pending" then .creating
  else if pod.phase = "Running" then
    if pod.conditions.any (fun c => c.condType == "Ready" && c.condStatus == "True")
    then .running
    else .creating
  else if pod.phase = "Succeeded" then .stopped
  else if pod.phase = "Failed" then .error
  else .error

/-- Env-list to Go-map conversion used by `PodToRunner`
(`for _, envVar := range containers[0].Env { env[name] = value }`). -/
def envListToMap (l : List EnvVar) : List (String × String) :=
  l.foldl (fun m e => mapInsert m e.name e.value) []

/-- `runner.CreatedAt` in `PodToRunner`: parse the created-at annotation when
present (an unparseable value leaves the zero value 0), else fall back to the
pod's creation timestamp. -/
def podCreatedAt (pod : Pod) : Int :=
  match mapLookup pod.annots runnerCreatedKey with
  | some s => (parseTime s).getD 0
  | none => pod.creationTimestamp

/-- `PodToRunner` (kubernetes.go, lines 338-392). Identifier and name come
from the annotations (Go map reads defaulting to `""`), the status is always
recomputed via `MapPodStatusToRunnerStatus`, and resources and environment
are read from `pod.Spec.Containers[0]` — the FIRST regular container. -/
def PodToRunner (pod : Pod) : Runner :=
  let createdAt := podCreatedAt pod
  let updatedAt := match pod.startTime with
    | some t => t
    | none => createdAt
  let resources : Option ResourceRequirements :=
    match pod.containers with
    | [] => none
    | c :: _ =>
      match c.requests with
      | none => none
      | some req =>
        some { cpuMillicores := (req.cpu.getD ⟨0⟩).milli
               memoryMB := (req.memory.getD ⟨0⟩).value / 1048576
               storageGB := (req.ephemeralStorage.getD ⟨0⟩).value / 1073741824 }
  let env : List (String × String) :=
    match pod.containers with
    | [] => []
    | c :: _ => envListToMap c.env
  { id := mapGetD pod.annots runnerIDKey
    name := mapGetD pod.annots runnerNameKey
    status := MapPodStatusToRunnerStatus pod
    resources := resources
    createdAt := createdAt
    updatedAt := updatedAt
    ssh := none
    ipAddress := pod.podIP
    env := env
    workspace := none }

/-! ## Pod template builder (`src/unnamed/part_009`) -/

/-- `PodCreationRequest` from part_009. -/
structure PodCreationRequest where
  podName : String
  nspace : String
  runnerID : String
  runnerName : String
  image : String
  s3fsImage : String
  cpuRequest : String
  memoryRequest : String
  sshPort : Nat
  env : List (String × String)
  workspace : Option WorkspaceConfig
deriving DecidableEq, Repr

/-- `BuildPodCreationRequest` (part_009): the resource strings always come
from the config's "small" preset, never from the runner's envelope. -/
def BuildPodCreationRequest (runner : Runner) (config : KubernetesConfig) :
    PodCreationRequest :=
  { podName := "grad-runner-" ++ runner.id
    nspace := config.nspace
    runnerID := runner.id
    runnerName := runner.name
    image := config.runnerImage
    s3fsImage := config.s3fsImage
    cpuRequest := config.defaultCPU
    memoryRequest := config.defaultMemory
    sshPort := config.sshPort
    env := runner.env
    workspace := runner.workspace }

/-- The credential keys `ToPodSpec` forwards from the user environment to the
sidecar. -/
def awsCredentialKeys : List String :=
  ["AWS_ACCESS_KEY_ID", "AWS_SECRET_ACCESS_KEY", "AWS_SESSION_TOKEN"]

/-- The workspace-derived portion of the sidecar environment (part_009,
lines 111-152): present only when a workspace with a non-empty bucket is
given. -/
def workspaceEnv (w : Option WorkspaceConfig) : List EnvVar :=
  match w with
  | none => []
  | some ws =>
    if ws.bucket = "" then []
    else
      [⟨"S3_BUCKET", ws.bucket⟩]
      ++ (if ws.endpoint ≠ "" then [⟨"S3_ENDPOINT", ws.endpoint⟩] else [])
      ++ (if ws.pfx ≠ "" then [⟨"S3_PREFIX", ws.pfx⟩] else [])
      ++ (if ws.region ≠ "" then [⟨"AWS_DEFAULT_REGION", ws.region⟩] else [])
      ++ [⟨"MOUNT_PATH", "/workspace/dataset"⟩]
      ++ (if ws.readOnly then [⟨"MOUNT_OPTIONS", "ro"⟩] else [])

/-- `ToPodSpec` (part_009, lines 68-262). `now` stands for the source's
`time.Now()` in the created-at annotation. The regular containers are, in
order, the s3fs sidecar and then the main runner container; neither requests
any ephemeral storage. The returned pod's status subfields are the zero
values (the cluster fills them in after creation). Go map iteration order
over `req.Env` is unspecified; the embedding keeps the association-list
order, which fixes one admissible order. -/
def ToPodSpec (req : PodCreationRequest) (now : Int) : Pod :=
  let mainEnv : List EnvVar :=
    [⟨"RUNNER_ID", req.runnerID⟩, ⟨"RUNNER_NAME", req.runnerName⟩]
    ++ req.env.map (fun p => ⟨p.1, p.2⟩)
  let s3fsEnv : List EnvVar :=
    [⟨"RUNNER_ID", req.runnerID⟩, ⟨"RUNNER_NAME", req.runnerName⟩]
    ++ (req.env.filter (fun p => awsCredentialKeys.contains p.1)).map
        (fun p => ⟨p.1, p.2⟩)
    ++ workspaceEnv req.workspace
  let sidecar : Container :=
    { name := "s3fs-sidecar"
      image := req.s3fsImage
      env := s3fsEnv
      requests := some { cpu := parseQuantity "50m"
                         memory := parseQuantity "64Mi"
                         ephemeralStorage := none }
      limits := some { cpu := parseQuantity "100m"
                       memory := parseQuantity "128Mi"
                       ephemeralStorage := none }
      command := []
      args := [] }
  let mainContainer : Container :=
    { name := "runner"
      image := req.image
      env := mainEnv
      requests := some { cpu := parseQuantity req.cpuRequest
                         memory := parseQuantity req.memoryRequest
                         ephemeralStorage := none }
      limits := some { cpu := parseQuantity req.cpuRequest
                       memory := parseQuantity req.memoryRequest
                       ephemeralStorage := none }
      command := ["/usr/local/bin/entrypoint.sh"]
      args := ["sleep", "infinity"] }
  { name := req.podName
    nspace := req.nspace
    labels := [("app", "grad-runner"),
               ("app.kubernetes.io/managed-by", "grad"),
               ("app.kubernetes.io/component", "runner"),
               ("app.kubernetes.io/name", "grad-runner"),
               ("app.kubernetes.io/instance", req.runnerID),
               ("type", "runner"),
               ("runner-id", req.runnerID)]
    annots := [(runnerIDKey, req.runnerID),
               (runnerNameKey, req.runnerName),
               (runnerStatusKey, "creating"),
               (runnerCreatedKey, formatTime now)]
    finalizers := ["grad.io/runner-finalizer"]
    creationTimestamp := 0
    containers := [sidecar, mainContainer]
    phase := ""
    conditions := []
    startTime := none
    podIP := "" }

/-! ## Identifier allocation (`generateRunnerID`, runner.go lines 184-207) -/

/-- Longest digit run at the head of the character list, `none` if empty. -/
def scanNatPfx (cs : List Char) : Option Nat :=
  let digits := cs.takeWhile Char.isDigit
  if digits.isEmpty then none else some (digitsToNat digits)

/-- The whitespace runes of package fmt's `space` table: U+0009-U+000D,
space, U+0085, U+00A0, U+1680, U+2000-U+200A, U+2028, U+2029, U+202F,
U+205F, U+3000. (`\n` is in the table but is handled separately by
`skipFmtSpace`.) -/
def isFmtSpace (c : Char) : Bool :=
  (0x09 ≤ c.toNat && c.toNat ≤ 0x0d)
  || c == ' '
  || c.toNat == 0x85 || c.toNat == 0xa0 || c.toNat == 0x1680
  || (0x2000 ≤ c.toNat && c.toNat ≤ 0x200a)
  || c.toNat == 0x2028 || c.toNat == 0x2029 || c.toNat == 0x202f
  || c.toNat == 0x205f || c.toNat == 0x3000

/-- fmt's `SkipSpace` with `nlIsSpace = false`, as `Sscanf` runs it before a
verb: consume fmt whitespace, but a newline — or a `\r` immediately
followed by `\n` — makes the scan fail ("unexpected newline"); a lone `\r`
is ordinary whitespace. -/
def skipFmtSpace : List Char → Option (List Char)
  | [] => some []
  | '\r' :: '\n' :: _ => none
  | '\n' :: _ => none
  | c :: rest =>
    if isFmtSpace c then skipFmtSpace rest else some (c :: rest)

/-- Largest value of Go's 64-bit `int`, which `Sscanf`'s `%d` parses into. -/
def int64Max : Int := 9223372036854775807

/-- Smallest value of Go's 64-bit `int`. -/
def int64Min : Int := -9223372036854775808

/-- The `%d` verb of `fmt.Sscanf`: skip fmt whitespace (a newline aborts
the scan), accept an optional sign, read the longest digit run (at least
one digit), then convert with `strconv.ParseInt(_, 10, 64)` — a value
outside the `int64` range is a range error and the whole scan fails.
Trailing input after the digit run is ignored by `Sscanf`. -/
def scanInt (s : String) : Option Int :=
  (skipFmtSpace s.toList).bind fun cs =>
    match cs with
    | '-' :: rest => (scanNatPfx rest).bind fun n =>
        if -(n : Int) < int64Min then none else some (-(n : Int))
    | '+' :: rest => (scanNatPfx rest).bind fun n =>
        if int64Max < (n : Int) then none else some ((n : Int))
    | _ => (scanNatPfx cs).bind fun n =>
        if int64Max < (n : Int) then none else some ((n : Int))

/-- The number `generateRunnerID` extracts from one runner-id annotation:
the guard `len(s) > 7 && s[:7] == "runner-"` followed by
`fmt.Sscanf(s, "runner-%d", &n)` succeeding with one item. -/
def runnerIDNum (s : String) : Option Int :=
  if 7 < s.length ∧ s.take 7 = "runner-" then scanInt (s.drop 7) else none

/-- The body of `generateRunnerID`'s loop: keep the larger of the
accumulator and the number extracted from the pod's runner-id annotation
(pods without the annotation, or whose annotation fails the scan, leave the
accumulator unchanged). -/
def runnerIDMaxStep (acc : Int) (pod : Pod) : Int :=
  match mapLookup pod.annots runnerIDKey with
  | some s =>
    match runnerIDNum s with
    | some n => if acc < n then n else acc
    | none => acc
  | none => acc

/-- `generateRunnerID` (runner.go): fold the listed pods with
`runnerIDMaxStep` starting from 0 and return `runner-(max+1)`; an empty
list yields `runner-1`. -/
def generateRunnerID (pods : List Pod) : String :=
  "runner-" ++ toString (pods.foldl runnerIDMaxStep 0 + 1)

/-! ## Service operations (runner.go) -/

/-- The outcome of the cluster gateway's pod fetch (`GetRunnerPod`,
kubernetes.go lines 192-201) as observed by the service layer: the pod, a
Kubernetes not-found error, or any other (network/API) error. `GetRunnerPod`
wraps every client error opaquely and its callers in runner.go only test
`err != nil`. -/
inductive FetchResult
  | found (pod : Pod)
  | notFound
  | networkError
deriving DecidableEq, Repr

/-- `GetRunner` (runner.go lines 151-159): every fetch error — not-found and
network errors alike — is collapsed into `ErrRunnerNotFound`. -/
def GetRunner (fetch : FetchResult) : Except ServiceError Runner :=
  match fetch with
  | .found pod => .ok (PodToRunner pod)
  | .notFound => .error .runnerNotFound
  | .networkError => .error .runnerNotFound

/-- Result of the pod-deletion step, separating the `errors.IsNotFound`
branch tested by `DeleteRunner`. -/
inductive DeleteStepResult
  | ok
  | notFound
  | otherError
deriving DecidableEq, Repr

/-- The cluster's responses to the three calls `DeleteRunner` can make. -/
structure DeleteClusterBehavior where
  fetch : FetchResult
  removeFinalizerOk : Bool
  deleteStep : DeleteStepResult
deriving Repr

/-- What `DeleteRunner` returned and which cluster mutations it requested. -/
structure DeleteOutcome where
  result : Except ServiceError Unit
  finalizerRemovalRequested : Bool
  deletionRequested : Bool
deriving Repr

/-- `DeleteRunner` (runner.go lines 76-97): any fetch error yields
`ErrRunnerNotFound`; then the finalizer is removed (failure: kubernetes-API
error, no deletion attempted); then pod deletion is requested, with
`IsNotFound` swallowed and any other failure surfaced as kubernetes-API. -/
def DeleteRunner (b : DeleteClusterBehavior) : DeleteOutcome :=
  match b.fetch with
  | .notFound => ⟨.error .runnerNotFound, false, false⟩
  | .networkError => ⟨.error .runnerNotFound, false, false⟩
  | .found _ =>
    if b.removeFinalizerOk then
      match b.deleteStep with
      | .ok => ⟨.ok (), true, true⟩
      | .notFound => ⟨.ok (), true, true⟩
      | .otherError => ⟨.error .kubernetesAPI, true, true⟩
    else ⟨.error .kubernetesAPI, true, false⟩

/-- Whether `ExecuteCommandStream` delegated to the cluster gateway, and the
error it failed with otherwise. -/
structure ExecDecision where
  delegated : Bool
  err : Option ServiceError
deriving DecidableEq, Repr

/-- `ExecuteCommandStream`'s precondition check (runner.go lines 162-181):
fetch the pod (any error: runner-not-found), project it, and delegate only
when the projected status is RUNNING, failing with runner-not-running
otherwise. -/
def ExecuteCommandStream (fetch : FetchResult) : ExecDecision :=
  match fetch with
  | .found pod =>
    if (PodToRunner pod).status ≠ .running then ⟨false, some .runnerNotRunning⟩
    else ⟨true, none⟩
  | .notFound => ⟨false, some .runnerNotFound⟩
  | .networkError => ⟨false, some .runnerNotFound⟩

/-! ## gRPC error mapping (`src/unnamed/part_011`, lines 361-382) -/

/-- The gRPC status codes `mapServiceError` produces. -/
inductive GrpcCode
  | notFoundCode
  | failedPrecondition
  | invalidArgument
  | alreadyExists
  | internal
deriving DecidableEq, Repr

/-- `mapServiceError` (part_011): the centralised kind-to-code table. The
domain error type is closed, so the Go `default: internal` arm is
unreachable here. -/
def mapServiceError (e : ServiceError) : GrpcCode :=
  match e with
  | .runnerNotFound => .notFoundCode
  | .runnerNotRunning => .failedPrecondition
  | .invalidRequest => .invalidArgument
  | .resourceConflict => .alreadyExists
  | .kubernetesAPI => .internal
  | .commandExecution => .internal

/-! ## CreateRunner (runner.go lines 24-73) -/

/-- `CreateRunnerRequest` from `types.go`, with the optional workspace
descriptor of the revision part_009 builds pods from. -/
structure CreateRunnerRequest where
  name : String
  env : List (String × String)
  workspace : Option WorkspaceConfig
deriving Repr

/-- The `Runner` value `CreateRunner` assembles before pod creation
(runner.go lines 44-59): name defaulted to the identifier, the hardcoded
small preset, SSH placeholder {localhost, 22, runner} and placeholder IP. -/
def runnerForCreation (req : CreateRunnerRequest) (runnerID : String)
    (now : Int) : Runner :=
  { id := runnerID
    name := if req.name = "" then runnerID else req.name
    status := .creating
    resources := some { cpuMillicores := runnerSpecPresetSmall.cpuMillicores
                        memoryMB := runnerSpecPresetSmall.memoryMB
                        storageGB := runnerSpecPresetSmall.storageGB }
    createdAt := now
    updatedAt := now
    ssh := some { host := "localhost", port := 22, username := "runner"
                  publicKey := "" }
    ipAddress := "127.0.0.1"
    env := req.env
    workspace := req.workspace }

/-- The pod submitted to the cluster for a runner:
`BuildPodCreationRequest` followed by `ToPodSpec`
(`CreateRunnerPod`, kubernetes.go lines 166-177). -/
def renderPod (r : Runner) (config : KubernetesConfig) (now : Int) : Pod :=
  ToPodSpec (BuildPodCreationRequest r config) now

/-- `CreateRunner`'s happy path: generate the identifier from the listed
pods, assemble the runner, create the pod, re-fetch it and return its
projection. The re-fetched pod is the rendered pod as stored by the cluster
at creation time. -/
def CreateRunnerResult (req : CreateRunnerRequest) (existing : List Pod)
    (config : KubernetesConfig) (now : Int) : Runner :=
  PodToRunner (renderPod (runnerForCreation req (generateRunnerID existing) now)
    config now)

/-! ## Activity tracker (`src/unnamed/part_007`) -/

/-- The tracker's map from runner identifier to last-active instant. -/
abbrev Tracker := List (String × Int)

/-- Lookup of a tracked instant. -/
def trackerLookup (tr : Tracker) (id : String) : Option Int :=
  match tr with
  | [] => none
  | (k, t) :: rest => if k = id then some t else trackerLookup rest id

/-- `UpdateLastActiveTime` (part_007 lines 23-32): map write of `now`. -/
def UpdateLastActiveTime (tr : Tracker) (id : String) (now : Int) : Tracker :=
  (tr.filter (fun p => p.1 ≠ id)) ++ [(id, now)]

/-- `RemoveRunner` (part_007 lines 73-89): map delete. -/
def RemoveRunner (tr : Tracker) (id : String) : Tracker :=
  tr.filter (fun p => p.1 ≠ id)

/-- `GetInactiveRunners` (part_007 lines 44-70): identifiers whose entry is
strictly older than the window (`now.Sub(lastActive) > inactiveDuration`). -/
def GetInactiveRunners (tr : Tracker) (now threshold : Int) : List String :=
  (tr.filter (fun p => threshold < now - p.2)).map Prod.fst

/-- `GetAllTrackedRunners` (part_007 lines 92-101). -/
def GetAllTrackedRunners (tr : Tracker) : List String := tr.map Prod.fst

/-- Modelled from the spec: the write sites of the activity map. The
revision of runner.go that holds the tracker (constructed as
`NewRunnerService(k8sClient, activityTracker)` by
runner_integration_test.go) is not in the snapshot; per the spec, the only
operation that CREATES an entry is the touch (`UpdateLastActiveTime`) at
command-execute start, and entries are only ever removed otherwise
(`RemoveRunner` from the cleanup service). -/
inductive TrackerEvent
  | executeStart (id : String) (now : Int)
  | remove (id : String)
deriving DecidableEq, Repr

/-- Effect of one tracker event on the activity map. -/
def applyTrackerEvent (tr : Tracker) : TrackerEvent → Tracker
  | .executeStart id now => UpdateLastActiveTime tr id now
  | .remove id => RemoveRunner tr id

/-- The tracker state after a trace of events, starting from the empty map
(`NewActivityTracker`). -/
def runTrackerTrace (events : List TrackerEvent) : Tracker :=
  events.foldl applyTrackerEvent []

/-! ## Cleanup service (`src/unnamed/part_005`) -/

/-- What `deleteInactiveRunner` (part_005 lines 122-166) did for one
identifier: whether it removed the tracker entry itself, whether it asked
the runner service to delete, the `deleted` flag it returned, and the error
it returned. Inputs: the `GetRunner` outcome (projected status on success)
and the `DeleteRunner` outcome when a delete is attempted. -/
structure DIROutcome where
  removedInside : Bool
  deleteRequested : Bool
  deleted : Bool
  err : Option ServiceError
deriving DecidableEq, Repr

/-- `deleteInactiveRunner` (part_005): not-found purges and reports
(false, nil); a STOPPED or ERROR projection purges and reports (false, nil)
without deleting; otherwise a delete is requested and its error is
propagated. -/
def deleteInactiveRunner (get : Except ServiceError RunnerStatus)
    (deleteErr : Option ServiceError) : DIROutcome :=
  match get with
  | .error e =>
    if e = .runnerNotFound then ⟨true, false, false, none⟩
    else ⟨false, false, false, some e⟩
  | .ok st =>
    if st = .stopped ∨ st = .error then ⟨true, false, false, none⟩
    else
      match deleteErr with
      | some e => ⟨false, true, false, some e⟩
      | none => ⟨false, true, true, none⟩

/-- Net effect of one cleanup-tick iteration on one inactive identifier
(part_005 lines 88-107): the caller removes the tracker entry whenever
`deleteInactiveRunner` returned no error (both the deleted and the
already-stopped branches) and keeps it on error. -/
structure CleanupEffect where
  purged : Bool
  deleteRequested : Bool
deriving DecidableEq, Repr

/-- Composition of `deleteInactiveRunner` with its caller's tracker
bookkeeping in `cleanupInactiveRunners`. -/
def cleanupRunnerEffect (get : Except ServiceError RunnerStatus)
    (deleteErr : Option ServiceError) : CleanupEffect :=
  let o := deleteInactiveRunner get deleteErr
  ⟨o.removedInside || o.err.isNone, o.deleteRequested⟩

/-! ## Streaming writer discipline (kubernetes.go lines 263-319) -/

/-- What one send step of the stdout/stderr writer goroutine can do. `drop`
is included only to express the (absent) non-blocking-with-default
discipline; the source's select has no default branch. -/
inductive WriterStep
  | stop
  | enqueue
  | suspend
  | drop
deriving DecidableEq, Repr

/-- Capacity of the stdout/stderr channels created by the gRPC layer
(part_011 lines 111-112). -/
def streamChannelCapacity : Nat := 100

/-- The possible outcomes of the writer's `select` over `ctx.Done()` and
`ch <- lineCopy` (kubernetes.go lines 278-285 and 307-314): ready branches
are cancellation (when the context is done) and enqueue (when the buffer has
a free slot); with no ready branch — and no `default` arm in the source —
the goroutine suspends. -/
def writerStepOutcomes (ctxCancelled : Bool) (freeSlots : Nat) :
    List WriterStep :=
  let ready :=
    (if ctxCancelled then [WriterStep.stop] else [])
    ++ (if 0 < freeSlots then [WriterStep.enqueue] else [])
  if ready.isEmpty then [WriterStep.suspend] else ready

/-! ## Claim-side (spec-worded) definitions, for refinement comparisons -/

/-- A pod in phase Pending carrying a runner-id annotation. -/
def podPendingEx : Pod :=
  { name := "grad-runner-runner-1", nspace := "default", labels := []
    annots := [(runnerIDKey, "runner-1")], finalizers := []
    creationTimestamp := 0, containers := [], phase := "Pending"
    conditions := [], startTime := none, podIP := "" }

/-- The same pod in phase Running with condition Ready/True. -/
def podRunningReadyEx : Pod :=
  { podPendingEx with phase := "Running", conditions := [⟨"Ready", "True"⟩] }

/-- The same pod in phase Running with condition Ready/False. -/
def podRunningNotReadyEx : Pod :=
  { podPendingEx with phase := "Running", conditions := [⟨"Ready", "False"⟩] }

/-- The same pod in phase Succeeded. -/
def podSucceededEx : Pod := { podPendingEx with phase := "Succeeded" }

/-- The same pod in phase Failed. -/
def podFailedEx : Pod := { podPendingEx with phase := "Failed" }

/-- The same pod in phase Unknown (an "any other" phase). -/
def podUnknownEx : Pod := { podPendingEx with phase := "Unknown" }

/-- A runner carrying the small preset and one user environment variable. -/
def rtRunnerEx : Runner :=
  { id := "runner-1", name := "r1", status := .creating
    resources := some ⟨2000, 2048, 40⟩, createdAt := 0, updatedAt := 0
    ssh := some ⟨"localhost", 22, "runner", ""⟩, ipAddress := "127.0.0.1"
    env := [("FOO", "bar")], workspace := none }

/-- A create request with a blank name and one user environment variable. -/
def createReqEx : CreateRunnerRequest :=
  { name := "", env := [("FOO", "bar")], workspace := none }

/-! ## Helper lemmas -/

/-- The projection always recomputes the status from phase and conditions. -/
theorem PodToRunner_status (p : Pod) :
    (PodToRunner p).status = MapPodStatusToRunnerStatus p := rfl

/-- The projection never produces an SSH descriptor. -/
theorem PodToRunner_ssh (p : Pod) : (PodToRunner p).ssh = none := rfl

/-- The status mapping reads only the phase and the conditions. -/
theorem MapPodStatusToRunnerStatus_congr {p q : Pod}
    (hph : p.phase = q.phase) (hc : p.conditions = q.conditions) :
    MapPodStatusToRunnerStatus p = MapPodStatusToRunnerStatus q := by
  unfold MapPodStatusToRunnerStatus
  rw [hph, hc]

/-- The Ready/True scan of the status mapping, as an existential. -/
theorem ready_any_iff (p : Pod) :
    (p.conditions.any fun c => c.condType == "Ready" && c.condStatus == "True")
      = true
    ↔ ∃ c ∈ p.conditions, c.condType = "Ready" ∧ c.condStatus = "True" := by
  rw [List.any_eq_true]
  constructor
  · rintro ⟨c, hc, h⟩
    simp only [Bool.and_eq_true, beq_iff_eq] at h
    exact ⟨c, hc, h⟩
  · rintro ⟨c, hc, h1, h2⟩
    exact ⟨c, hc, by simp [h1, h2]⟩

/-! ## Claims -/

/-- C1: for every pod snapshot, the runner state projected from it is a pure
function of the pod's phase and conditions: Pending ↦ CREATING; Running with
a Ready=True condition ↦ RUNNING; Running without Ready=True ↦ CREATING;
Succeeded ↦ STOPPED; Failed ↦ ERROR; any other phase ↦ ERROR. The projection
never reads the cached status annotation: two pods agreeing on phase and
conditions (whatever their annotations) project to the same state. -/
theorem runner_state_projection_pure :
    (∀ p : Pod, (PodToRunner p).status = MapPodStatusToRunnerStatus p)
    ∧ (∀ p : Pod, p.phase = "Pending" →
        MapPodStatusToRunnerStatus p = .creating)
    ∧ (∀ p : Pod, p.phase = "Running" →
        (∃ c ∈ p.conditions, c.condType = "Ready" ∧ c.condStatus = "True") →
        MapPodStatusToRunnerStatus p = .running)
    ∧ (∀ p : Pod, p.phase = "Running" →
        ¬(∃ c ∈ p.conditions, c.condType = "Ready" ∧ c.condStatus = "True") →
        MapPodStatusToRunnerStatus p = .creating)
    ∧ (∀ p : Pod, p.phase = "Succeeded" →
        MapPodStatusToRunnerStatus p = .stopped)
    ∧ (∀ p : Pod, p.phase = "Failed" → MapPodStatusToRunnerStatus p = .error)
    ∧ (∀ p : Pod, p.phase ≠ "Pending" → p.phase ≠ "Running" →
        p.phase ≠ "Succeeded" → p.phase ≠ "Failed" →
        MapPodStatusToRunnerStatus p = .error)
    ∧ (∀ p q : Pod, p.phase = q.phase → p.conditions = q.conditions →
        MapPodStatusToRunnerStatus p = MapPodStatusToRunnerStatus q) := by
  refine ⟨PodToRunner_status, ?_, ?_, ?_, ?_, ?_, ?_,
    fun p q hph hc => MapPodStatusToRunnerStatus_congr hph hc⟩
  · intro p h
    simp [MapPodStatusToRunnerStatus, h]
  · intro p h hex
    have hany := (ready_any_iff p).mpr hex
    simp [MapPodStatusToRunnerStatus, h, hany]
  · intro p h hnex
    have hany : (p.conditions.any
        fun c => c.condType == "Ready" && c.condStatus == "True") = false := by
      rw [Bool.eq_false_iff]
      intro hcon
      exact hnex ((ready_any_iff p).mp hcon)
    simp [MapPodStatusToRunnerStatus, h, hany]
  · intro p h
    simp [MapPodStatusToRunnerStatus, h]
  · intro p h
    simp [MapPodStatusToRunnerStatus, h]
  · intro p h1 h2 h3 h4
    simp [MapPodStatusToRunnerStatus, h1, h2, h3, h4]

/-- C1 witness: the mapping evaluated on concrete pods of each phase. -/
theorem runner_state_projection_pure_witness :
    MapPodStatusToRunnerStatus podPendingEx = .creating
    ∧ MapPodStatusToRunnerStatus podRunningReadyEx = .running
    ∧ MapPodStatusToRunnerStatus podRunningNotReadyEx = .creating
    ∧ MapPodStatusToRunnerStatus podSucceededEx = .stopped
    ∧ MapPodStatusToRunnerStatus podFailedEx = .error
    ∧ MapPodStatusToRunnerStatus podUnknownEx = .error :=
  ⟨runner_state_projection_pure.2.1 podPendingEx rfl,
   runner_state_projection_pure.2.2.1 podRunningReadyEx rfl
     ⟨⟨"Ready", "True"⟩, by decide, rfl, rfl⟩,
   runner_state_projection_pure.2.2.2.1 podRunningNotReadyEx rfl (by decide),
   runner_state_projection_pure.2.2.2.2.1 podSucceededEx rfl,
   runner_state_projection_pure.2.2.2.2.2.1 podFailedEx rfl,
   runner_state_projection_pure.2.2.2.2.2.2.1 podUnknownEx (by decide)
     (by decide) (by decide) (by decide)⟩

/-- C4: ExecuteCommandStream on a fetched pod that projects to any state
other than RUNNING fails with the runner-not-running error and does not
delegate; on a pod that projects to RUNNING it delegates. -/
theorem execute_precondition (pod : Pod) :
    (MapPodStatusToRunnerStatus pod ≠ .running →
      ExecuteCommandStream (.found pod)
        = ⟨false, some .runnerNotRunning⟩)
    ∧ (MapPodStatusToRunnerStatus pod = .running →
      ExecuteCommandStream (.found pod) = ⟨true, none⟩) := by
  have hs := PodToRunner_status pod
  constructor
  · intro h
    simp [ExecuteCommandStream, hs, h]
  · intro h
    simp [ExecuteCommandStream, hs, h]

/-- C4 witness: a Pending pod (projecting to CREATING) is rejected without
delegation; a Running+Ready pod is delegated. -/
theorem execute_precondition_witness :
    ExecuteCommandStream (.found podPendingEx)
      = ⟨false, some .runnerNotRunning⟩
    ∧ ExecuteCommandStream (.found podRunningReadyEx) = ⟨true, none⟩ :=
  ⟨(execute_precondition podPendingEx).1 (by decide),
   (execute_precondition podRunningReadyEx).2 (by decide)⟩

/-- C5: DeleteRunner on a non-existent runner returns runner-not-found (and
touches nothing); when the fetch succeeds and finalizer removal succeeds,
the finalizer removal and the pod deletion are both requested; a not-found
result from the deletion step is swallowed into success, while any other
deletion failure surfaces as the kubernetes-API error. -/
theorem delete_runner_semantics (b : DeleteClusterBehavior) :
    (b.fetch = .notFound →
      (DeleteRunner b).result = .error .runnerNotFound
      ∧ (DeleteRunner b).deletionRequested = false)
    ∧ (∀ pod, b.fetch = .found pod → b.removeFinalizerOk = true →
      (DeleteRunner b).finalizerRemovalRequested = true
      ∧ (DeleteRunner b).deletionRequested = true)
    ∧ (∀ pod, b.fetch = .found pod → b.removeFinalizerOk = true →
      b.deleteStep = .notFound → (DeleteRunner b).result = .ok ())
    ∧ (∀ pod, b.fetch = .found pod → b.removeFinalizerOk = true →
      b.deleteStep = .otherError →
      (DeleteRunner b).result = .error .kubernetesAPI) := by
  obtain ⟨f, rf, ds⟩ := b
  refine ⟨?_, ?_, ?_, ?_⟩
  · intro h
    subst h
    simp [DeleteRunner]
  · intro pod hf hrf
    subst hf
    subst hrf
    cases ds <;> simp [DeleteRunner]
  · intro pod hf hrf hds
    subst hf
    subst hrf
    subst hds
    simp [DeleteRunner]
  · intro pod hf hrf hds
    subst hf
    subst hrf
    subst hds
    simp [DeleteRunner]

/-- C5 witness: the four behaviours at concrete cluster responses. -/
theorem delete_runner_semantics_witness :
    (DeleteRunner ⟨.notFound, true, .ok⟩).result = .error .runnerNotFound
    ∧ (DeleteRunner ⟨.found podPendingEx, true, .ok⟩).deletionRequested = true
    ∧ (DeleteRunner ⟨.found podPendingEx, true, .notFound⟩).result = .ok ()
    ∧ (DeleteRunner ⟨.found podPendingEx, true, .otherError⟩).result
        = .error .kubernetesAPI :=
  ⟨((delete_runner_semantics ⟨.notFound, true, .ok⟩).1 rfl).1,
   ((delete_runner_semantics ⟨.found podPendingEx, true, .ok⟩).2.1
     podPendingEx rfl rfl).2,
   (delete_runner_semantics ⟨.found podPendingEx, true, .notFound⟩).2.2.1
     podPendingEx rfl rfl rfl,
   (delete_runner_semantics ⟨.found podPendingEx, true, .otherError⟩).2.2.2
     podPendingEx rfl rfl rfl⟩

/-- C6 counterexample: a network/cluster error on the fetch — where the pod
is NOT absent — still yields the runner-not-found error kind, which the
transport maps to NOT_FOUND rather than INTERNAL; so runner-not-found is
not reserved for actually-absent pods, contradicting the claim. -/
theorem fetch_error_kind_cex :
    GetRunner .networkError = .error .runnerNotFound
    ∧ (DeleteRunner ⟨.networkError, true, .ok⟩).result
        = .error .runnerNotFound
    ∧ mapServiceError .runnerNotFound = .notFoundCode
    ∧ mapServiceError .runnerNotFound ≠ .internal :=
  ⟨rfl, rfl, rfl, by decide⟩

/-- C6 (amended): GetRunner (and DeleteRunner's existence check) collapse
EVERY fetch failure — genuine absence and network/cluster errors alike —
into the runner-not-found kind (NOT_FOUND at the transport); the
kubernetes-API kind (INTERNAL at the transport) is used for the other
cluster operations, e.g. finalizer removal and deletion failures. -/
theorem fetch_error_kind_amended (f : FetchResult) :
    ((∀ pod, f ≠ .found pod) →
      GetRunner f = .error .runnerNotFound
      ∧ (DeleteRunner ⟨f, true, .ok⟩).result = .error .runnerNotFound)
    ∧ mapServiceError .runnerNotFound = .notFoundCode
    ∧ mapServiceError .kubernetesAPI = .internal
    ∧ (DeleteRunner ⟨.found podPendingEx, true, .otherError⟩).result
        = .error .kubernetesAPI := by
  refine ⟨?_, rfl, rfl, rfl⟩
  intro h
  cases f with
  | found pod => exact absurd rfl (h pod)
  | notFound => exact ⟨rfl, rfl⟩
  | networkError => exact ⟨rfl, rfl⟩

/-- C6 amended witness: instantiated at the network-error fetch outcome. -/
theorem fetch_error_kind_amended_witness :
    GetRunner .networkError = .error .runnerNotFound
    ∧ (DeleteRunner ⟨.networkError, true, .ok⟩).result
        = .error .runnerNotFound :=
  (fetch_error_kind_amended .networkError).1 (fun pod h => by cases h)

/-- C7: for each identifier the reaper processes on a tick — runner not
found: the tracker entry is purged and no delete is requested; projected
state STOPPED or ERROR: the entry is purged and no delete is requested;
otherwise a delete is requested and the entry is purged exactly when that
delete succeeds (kept for retry on failure). -/
theorem reaper_safety (get : Except ServiceError RunnerStatus)
    (deleteErr : Option ServiceError) :
    (get = .error .runnerNotFound →
      cleanupRunnerEffect get deleteErr = ⟨true, false⟩)
    ∧ (∀ st, get = .ok st → (st = .stopped ∨ st = .error) →
      cleanupRunnerEffect get deleteErr = ⟨true, false⟩)
    ∧ (∀ st, get = .ok st → ¬(st = .stopped ∨ st = .error) →
      (cleanupRunnerEffect get deleteErr).deleteRequested = true
      ∧ ((cleanupRunnerEffect get deleteErr).purged = true
          ↔ deleteErr = none)) := by
  refine ⟨?_, ?_, ?_⟩
  · intro h
    subst h
    simp [cleanupRunnerEffect, deleteInactiveRunner]
  · intro st h hterm
    subst h
    simp [cleanupRunnerEffect, deleteInactiveRunner, hterm]
  · intro st h hlive
    subst h
    cases deleteErr with
    | none => simp [cleanupRunnerEffect, deleteInactiveRunner, hlive]
    | some e => simp [cleanupRunnerEffect, deleteInactiveRunner, hlive]

/-- C7 witness: the reaper decisions at concrete inputs — not-found,
terminal (STOPPED), live runner with successful delete, and live runner
with failed delete. -/
theorem reaper_safety_witness :
    cleanupRunnerEffect (.error .runnerNotFound) none = ⟨true, false⟩
    ∧ cleanupRunnerEffect (.ok .stopped) none = ⟨true, false⟩
    ∧ (cleanupRunnerEffect (.ok .running) none).deleteRequested = true
    ∧ (cleanupRunnerEffect (.ok .running) none).purged = true
    ∧ (cleanupRunnerEffect (.ok .running)
        (some .kubernetesAPI)).deleteRequested = true
    ∧ (cleanupRunnerEffect (.ok .running)
        (some .kubernetesAPI)).purged = false :=
  ⟨(reaper_safety (.error .runnerNotFound) none).1 rfl,
   (reaper_safety (.ok .stopped) none).2.1 .stopped rfl (Or.inl rfl),
   ((reaper_safety (.ok .running) none).2.2 .running rfl (by decide)).1,
   (((reaper_safety (.ok .running) none).2.2 .running rfl (by decide)).2).mpr
     rfl,
   ((reaper_safety (.ok .running) (some .kubernetesAPI)).2.2 .running rfl
     (by decide)).1,
   by decide⟩

/-- C9 counterexample: with a full buffer (no free slot) and a live context,
the writer's select — which has no default branch — can only suspend; a
drop is never a possible outcome. This refutes "every send is non-blocking
and a full buffer drops the chunk". -/
theorem writer_backpressure_cex :
    writerStepOutcomes false 0 = [WriterStep.suspend]
    ∧ WriterStep.suspend ∈ writerStepOutcomes false 0
    ∧ WriterStep.drop ∉ writerStepOutcomes false 0 := by decide

/-- C9 (amended): the stdout/stderr writer steps use a blocking select over
context cancellation and the channel send; when the buffer is full and the
context live the writer suspends until space frees or cancellation — no
byte chunk is ever dropped. -/
theorem writer_backpressure_amended (ctxCancelled : Bool) (freeSlots : Nat) :
    WriterStep.drop ∉ writerStepOutcomes ctxCancelled freeSlots
    ∧ (ctxCancelled = false → freeSlots = 0 →
      writerStepOutcomes ctxCancelled freeSlots = [WriterStep.suspend]) := by
  cases ctxCancelled <;> cases freeSlots <;>
    simp [writerStepOutcomes]

/-- C9 amended witness: instantiated at a live context and a full buffer of
the stream channels' capacity. -/
theorem writer_backpressure_amended_witness :
    WriterStep.drop ∉ writerStepOutcomes false 0
    ∧ writerStepOutcomes false 0 = [WriterStep.suspend] :=
  ⟨(writer_backpressure_amended false 0).1,
   (writer_backpressure_amended false 0).2 rfl rfl⟩

/-- Lookup misses lists whose keys all differ from the key sought. -/
theorem trackerLookup_eq_none {tr : Tracker} {id : String}
    (h : id ∉ tr.map Prod.fst) : trackerLookup tr id = none := by
  induction tr with
  | nil => rfl
  | cons p rest ih =>
    obtain ⟨k, t⟩ := p
    simp only [List.map_cons, List.mem_cons] at h
    push_neg at h
    obtain ⟨h1, h2⟩ := h
    simp only [trackerLookup]
    rw [if_neg (fun he => h1 he.symm)]
    exact ih h2

/-- The inactive scan only returns tracked identifiers. -/
theorem mem_of_mem_getInactive {tr : Tracker} {id : String}
    {now threshold : Int}
    (h : id ∈ GetInactiveRunners tr now threshold) : id ∈ tr.map Prod.fst := by
  unfold GetInactiveRunners at h
  obtain ⟨p, hp, hfp⟩ := List.mem_map.mp h
  exact List.mem_map.mpr ⟨p, (List.mem_filter.mp hp).1, hfp⟩

/-- An event that is not a touch of `id` cannot introduce `id` into the
tracker. -/
theorem absent_after_event {tr : Tracker} {id : String} {e : TrackerEvent}
    (h : id ∉ tr.map Prod.fst)
    (he : ∀ now, e ≠ .executeStart id now) :
    id ∉ (applyTrackerEvent tr e).map Prod.fst := by
  cases e with
  | executeStart idx now =>
    have hid : idx ≠ id := by
      intro hh
      exact he now (by rw [hh])
    simp only [applyTrackerEvent, UpdateLastActiveTime]
    rw [List.map_append]
    intro hmem
    rcases List.mem_append.mp hmem with hmem | hmem
    · obtain ⟨p, hp, hfp⟩ := List.mem_map.mp hmem
      exact h (List.mem_map.mpr ⟨p, List.mem_of_mem_filter hp, hfp⟩)
    · simp only [List.map_cons, List.map_nil, List.mem_singleton] at hmem
      exact hid hmem.symm
  | remove idx =>
    simp only [applyTrackerEvent, RemoveRunner]
    intro hmem
    obtain ⟨p, hp, hfp⟩ := List.mem_map.mp hmem
    exact h (List.mem_map.mpr ⟨p, List.mem_of_mem_filter hp, hfp⟩)

/-- A trace with no touch of `id` keeps `id` out of the tracker. -/
theorem absent_after_foldl (events : List TrackerEvent) (id : String) :
    ∀ tr : Tracker, (∀ now, TrackerEvent.executeStart id now ∉ events) →
      id ∉ tr.map Prod.fst →
      id ∉ (events.foldl applyTrackerEvent tr).map Prod.fst := by
  induction events with
  | nil => intro tr _ h0; exact h0
  | cons e rest ih =>
    intro tr hne h0
    rw [List.foldl_cons]
    apply ih
    · intro now hmem
      exact hne now (List.mem_cons_of_mem e hmem)
    · apply absent_after_event h0
      intro now he
      apply hne now
      rw [← he]
      exact List.mem_cons_self e rest

/-- C8: activity-map entries are created only by the touch at
command-execute start; consequently, after any trace of tracker events that
contains no command-execute start for a runner, that runner has no activity
entry and never appears in the reaper's inactive set — so the reaper never
deletes it. (The touch call site is modelled from the spec; the tracker
operations are embedded from part_007.) -/
theorem never_executed_never_reaped (events : List TrackerEvent) (id : String)
    (h : ∀ now, TrackerEvent.executeStart id now ∉ events) :
    trackerLookup (runTrackerTrace events) id = none
    ∧ ∀ now threshold,
        id ∉ GetInactiveRunners (runTrackerTrace events) now threshold := by
  have habs : id ∉ (runTrackerTrace events).map Prod.fst :=
    absent_after_foldl events id [] h (by simp)
  exact ⟨trackerLookup_eq_none habs,
    fun now threshold hmem => habs (mem_of_mem_getInactive hmem)⟩

/-- C8 witness: a trace that touches runner-2 and removes runner-1 leaves
runner-1 untracked and outside the inactive set at a concrete instant. -/
theorem never_executed_never_reaped_witness :
    trackerLookup (runTrackerTrace
      [TrackerEvent.executeStart "runner-2" 5,
       TrackerEvent.remove "runner-1"]) "runner-1" = none
    ∧ "runner-1" ∉ GetInactiveRunners (runTrackerTrace
      [TrackerEvent.executeStart "runner-2" 5,
       TrackerEvent.remove "runner-1"]) 100 5 := by
  have h := never_executed_never_reaped
    [TrackerEvent.executeStart "runner-2" 5,
     TrackerEvent.remove "runner-1"] "runner-1"
    (by
      intro now hmem
      simp only [List.mem_cons, List.not_mem_nil, or_false] at hmem
      rcases hmem with h | h
      · injection h with h1 h2
        exact absurd h1 (by decide)
      · exact TrackerEvent.noConfusion h)
  exact ⟨h.1, h.2 100 5⟩

/-- Appending past a missing key continues the lookup on the right. -/
theorem mapLookup_append_right {m1 : List (String × String)} {k : String}
    (h : mapLookup m1 k = none) (m2 : List (String × String)) :
    mapLookup (m1 ++ m2) k = mapLookup m2 k := by
  induction m1 with
  | nil => rfl
  | cons p rest ih =>
    obtain ⟨k', v⟩ := p
    simp only [List.cons_append, mapLookup] at h ⊢
    by_cases hk : k' = k
    · rw [if_pos hk] at h
      exact absurd h (by simp)
    · rw [if_neg hk] at h ⊢
      exact ih h

/-- A key found on the left is unaffected by appending on the right. -/
theorem mapLookup_append_left {m1 : List (String × String)} {k v : String}
    (h : mapLookup m1 k = some v) (m2 : List (String × String)) :
    mapLookup (m1 ++ m2) k = some v := by
  induction m1 with
  | nil => exact absurd h (by simp [mapLookup])
  | cons p rest ih =>
    obtain ⟨k', v'⟩ := p
    simp only [List.cons_append, mapLookup] at h ⊢
    by_cases hk : k' = k
    · rw [if_pos hk] at h ⊢
      exact h
    · rw [if_neg hk] at h ⊢
      exact ih h

/-- Deleting a key makes its lookup miss. -/
theorem mapLookup_filter_self (m : List (String × String)) (a : String) :
    mapLookup (m.filter (fun p => p.1 ≠ a)) a = none := by
  induction m with
  | nil => rfl
  | cons p rest ih =>
    obtain ⟨k', v⟩ := p
    by_cases h : k' = a
    · simp only [List.filter_cons, h]
      simpa using ih
    · simp only [List.filter_cons]
      have hd : (decide ¬(k' = a)) = true := by simp [h]
      simp only [hd, if_true, mapLookup, if_neg h]
      exact ih

/-- Deleting a different key does not change a lookup. -/
theorem mapLookup_filter_ne {a k : String} (h : a ≠ k)
    (m : List (String × String)) :
    mapLookup (m.filter (fun p => p.1 ≠ a)) k = mapLookup m k := by
  induction m with
  | nil => rfl
  | cons p rest ih =>
    obtain ⟨k', v⟩ := p
    by_cases hk : k' = a
    · have hkk : k' ≠ k := by
        rw [hk]
        exact h
      simp only [List.filter_cons, hk]
      have hd : (decide ¬(a = a)) = false := by simp
      simp only [hd, Bool.false_eq_true, if_false, ih, mapLookup]
      rw [if_neg h]
    · simp only [List.filter_cons]
      have hd : (decide ¬(k' = a)) = true := by simp [hk]
      simp only [hd, if_true, mapLookup]
      by_cases hkk : k' = k
      · rw [if_pos hkk, if_pos hkk]
      · rw [if_neg hkk, if_neg hkk]
        exact ih

/-- Go-map write/read law for the association-list embedding. -/
theorem mapLookup_mapInsert (m : List (String × String)) (a v k : String) :
    mapLookup (mapInsert m a v) k
      = if a = k then some v else mapLookup m k := by
  unfold mapInsert
  by_cases h : a = k
  · subst h
    rw [mapLookup_append_right (mapLookup_filter_self m a)]
    simp [mapLookup]
  · rw [if_neg h]
    cases hm : mapLookup m k with
    | none =>
      rw [mapLookup_append_right]
      · simp [mapLookup, h]
      · rw [mapLookup_filter_ne h]
        exact hm
    | some v' =>
      apply mapLookup_append_left
      rw [mapLookup_filter_ne h]
      exact hm

/-- Folding env entries whose names all differ from `k` never changes the
lookup of `k`. -/
theorem envFold_lookup_of_ne {l : List EnvVar} {k : String}
    (h : ∀ e ∈ l, e.name ≠ k) :
    ∀ m : List (String × String),
      mapLookup (l.foldl (fun m e => mapInsert m e.name e.value) m) k
        = mapLookup m k := by
  induction l with
  | nil => intro m; rfl
  | cons e rest ih =>
    intro m
    rw [List.foldl_cons]
    rw [ih (fun e' he' => h e' (List.mem_cons_of_mem e he'))]
    rw [mapLookup_mapInsert]
    rw [if_neg (h e (List.mem_cons_self e rest))]

/-- An env list whose names all differ from `k` projects to a map without
`k`. -/
theorem envListToMap_lookup_of_ne {l : List EnvVar} {k : String}
    (h : ∀ e ∈ l, e.name ≠ k) : mapLookup (envListToMap l) k = none := by
  unfold envListToMap
  rw [envFold_lookup_of_ne h]
  rfl

/-- Appended env entries whose names all differ from `k` do not change the
lookup of `k`. -/
theorem envListToMap_append_lookup {l1 l2 : List EnvVar} {k : String}
    (h : ∀ e ∈ l2, e.name ≠ k) :
    mapLookup (envListToMap (l1 ++ l2)) k = mapLookup (envListToMap l1) k := by
  unfold envListToMap
  rw [List.foldl_append]
  exact envFold_lookup_of_ne h _

/-- The map of a two-entry env list is two insertions. -/
theorem envListToMap_pair (a va b vb : String) :
    envListToMap [⟨a, va⟩, ⟨b, vb⟩] = mapInsert (mapInsert [] a va) b vb := rfl

/-- The AWS credential keys are distinct from the injected runner keys. -/
theorem awsKeys_ne_runner_fields {s : String} (h : s ∈ awsCredentialKeys) :
    s ≠ "RUNNER_ID" ∧ s ≠ "RUNNER_NAME" := by
  simp only [awsCredentialKeys, List.mem_cons, List.not_mem_nil,
    or_false] at h
  rcases h with rfl | rfl | rfl <;> exact ⟨by decide, by decide⟩

/-- Names of the sidecar env entries taken from the user environment lie in
the AWS credential key set. -/
theorem sidecar_user_env_names {r : Runner} {e : EnvVar}
    (he : e ∈ (r.env.filter (fun p => awsCredentialKeys.contains p.1)).map
      (fun p => (⟨p.1, p.2⟩ : EnvVar))) :
    e.name ∈ awsCredentialKeys := by
  obtain ⟨p, hp, hfp⟩ := List.mem_map.mp he
  have hc := (List.mem_filter.mp hp).2
  have : p.1 ∈ awsCredentialKeys := by
    simpa [List.contains_iff_exists_mem_beq, beq_iff_eq, eq_comm]
      using hc
  rw [← hfp]
  exact this

/-- The projected environment of a rendered pod is the sidecar environment:
the first regular container of `ToPodSpec`'s pod is the s3fs sidecar. -/
theorem renderPod_projected_env (r : Runner) (config : KubernetesConfig)
    (now : Int) :
    (PodToRunner (renderPod r config now)).env
      = envListToMap
          ([⟨"RUNNER_ID", r.id⟩, ⟨"RUNNER_NAME", r.name⟩]
           ++ (r.env.filter (fun p => awsCredentialKeys.contains p.1)).map
               (fun p => ⟨p.1, p.2⟩)
           ++ workspaceEnv r.workspace) := rfl

/-- The projected identifier of a rendered pod is the runner's identifier
(read back from the runner-id annotation). -/
theorem renderPod_projected_id (r : Runner) (config : KubernetesConfig)
    (now : Int) :
    (PodToRunner (renderPod r config now)).id = r.id := rfl

/-- The projected name of a rendered pod is the runner's name (read back
from the runner-name annotation). -/
theorem renderPod_projected_name (r : Runner) (config : KubernetesConfig)
    (now : Int) :
    (PodToRunner (renderPod r config now)).name = r.name := rfl

/-- The projected resource envelope of a rendered pod is the SIDECAR's
constant envelope — 50 millicores, 64 MiB, and 0 GiB (no ephemeral-storage
request is rendered at all) — independent of the runner. -/
theorem renderPod_projected_resources (r : Runner) (now : Int) :
    (PodToRunner (renderPod r defaultKubernetesConfig now)).resources
      = some ⟨50, 64, 0⟩ := rfl

/-- C2 counterexample: for the concrete runner `rtRunnerEx` (small-preset
envelope 2000 mc / 2048 MiB / 40 GiB, environment containing FOO=bar), the
round trip preserves identifier and name but returns the sidecar's envelope
(50, 64, 0) and drops the user environment variable — so neither the
resource envelope nor the environment map is preserved. -/
theorem roundtrip_cex :
    (PodToRunner (renderPod rtRunnerEx defaultKubernetesConfig 0)).id
        = rtRunnerEx.id
    ∧ (PodToRunner (renderPod rtRunnerEx defaultKubernetesConfig 0)).name
        = rtRunnerEx.name
    ∧ (PodToRunner (renderPod rtRunnerEx defaultKubernetesConfig 0)).resources
        ≠ rtRunnerEx.resources
    ∧ mapLookup
        (PodToRunner (renderPod rtRunnerEx defaultKubernetesConfig 0)).env
        "FOO" = none
    ∧ mapLookup rtRunnerEx.env "FOO" = some "bar" :=
  ⟨rfl, rfl, by decide, by decide, rfl⟩

/-- C2 (amended): for every runner, projecting the rendered pod back
preserves the identifier and the name, but NOT the environment map or the
resource envelope: `PodToRunner` reads the first regular container, which
`ToPodSpec` makes the s3fs sidecar, so the recovered envelope is the
sidecar's constant (50 millicores, 64 MiB, 0 GiB — no ephemeral-storage
request is rendered) and the recovered environment holds only the injected
RUNNER_ID/RUNNER_NAME plus forwarded AWS-credential and workspace
variables; any other user variable is absent. -/
theorem roundtrip_amended (r : Runner) (now : Int) :
    (PodToRunner (renderPod r defaultKubernetesConfig now)).id = r.id
    ∧ (PodToRunner (renderPod r defaultKubernetesConfig now)).name = r.name
    ∧ (PodToRunner (renderPod r defaultKubernetesConfig now)).resources
        = some ⟨50, 64, 0⟩
    ∧ (∀ k : String, k ≠ "RUNNER_ID" → k ≠ "RUNNER_NAME" →
        k ∉ awsCredentialKeys → r.workspace = none →
        mapLookup (PodToRunner
          (renderPod r defaultKubernetesConfig now)).env k = none) := by
  refine ⟨renderPod_projected_id r defaultKubernetesConfig now,
    renderPod_projected_name r defaultKubernetesConfig now,
    renderPod_projected_resources r now, ?_⟩
  intro k h1 h2 h3 hws
  rw [renderPod_projected_env, hws]
  apply envListToMap_lookup_of_ne
  intro e he
  rcases List.mem_append.mp he with he | he
  · rcases List.mem_append.mp he with he | he
    · simp only [List.mem_cons, List.not_mem_nil, or_false] at he
      rcases he with rfl | rfl
      · exact fun hh => h1 hh.symm
      · exact fun hh => h2 hh.symm
    · intro hh
      exact h3 (hh ▸ sidecar_user_env_names he)
  · simp only [workspaceEnv, List.not_mem_nil] at he

/-- C2 amended witness: the amended statement instantiated at the concrete
runner `rtRunnerEx` and the key FOO. -/
theorem roundtrip_amended_witness :
    (PodToRunner (renderPod rtRunnerEx defaultKubernetesConfig 0)).id
        = rtRunnerEx.id
    ∧ mapLookup
        (PodToRunner (renderPod rtRunnerEx defaultKubernetesConfig 0)).env
        "FOO" = none :=
  ⟨(roundtrip_amended rtRunnerEx 0).1,
   (roundtrip_amended rtRunnerEx 0).2.2.2 "FOO" (by decide) (by decide)
     (by decide) rfl⟩

/-- C10 counterexample: a successful CreateRunner with user environment
FOO=bar returns a runner whose SSH descriptor is nil and whose environment
holds the injected RUNNER_ID and RUNNER_NAME — but NOT the user-supplied
variable FOO, contradicting the claim that the user variables are present
alongside the injected entries. -/
theorem create_runner_result_cex :
    (CreateRunnerResult createReqEx [] defaultKubernetesConfig 0).ssh = none
    ∧ mapLookup
        (CreateRunnerResult createReqEx [] defaultKubernetesConfig 0).env
        "RUNNER_ID" = some "runner-1"
    ∧ mapLookup
        (CreateRunnerResult createReqEx [] defaultKubernetesConfig 0).env
        "RUNNER_NAME" = some "runner-1"
    ∧ mapLookup
        (CreateRunnerResult createReqEx [] defaultKubernetesConfig 0).env
        "FOO" = none :=
  ⟨rfl, by decide, by decide, by decide⟩

/-- C10 (amended): the returned runner of a successful CreateRunner is the
projection of the re-fetched pod; its SSH descriptor is always nil (the
localhost/22/runner defaults are not read back), and its environment
contains the injected RUNNER_ID and RUNNER_NAME entries — but, because the
projection reads the first regular container (the s3fs sidecar), the
user-supplied variables outside the forwarded AWS-credential set are NOT in
the result. -/
theorem create_runner_result_amended (req : CreateRunnerRequest)
    (existing : List Pod) (now : Int) (hws : req.workspace = none) :
    (CreateRunnerResult req existing defaultKubernetesConfig now).ssh = none
    ∧ mapLookup
        (CreateRunnerResult req existing defaultKubernetesConfig now).env
        "RUNNER_ID" = some (generateRunnerID existing)
    ∧ mapLookup
        (CreateRunnerResult req existing defaultKubernetesConfig now).env
        "RUNNER_NAME"
        = some (if req.name = "" then generateRunnerID existing else req.name)
    ∧ (∀ k : String, k ≠ "RUNNER_ID" → k ≠ "RUNNER_NAME" →
        k ∉ awsCredentialKeys →
        mapLookup
          (CreateRunnerResult req existing defaultKubernetesConfig now).env
          k = none) := by
  refine ⟨rfl, ?_, ?_, ?_⟩
  · unfold CreateRunnerResult
    rw [renderPod_projected_env]
    rw [List.append_assoc]
    rw [envListToMap_append_lookup]
    · rw [envListToMap_pair]
      rw [mapLookup_mapInsert]
      rw [if_neg (by decide)]
      rw [mapLookup_mapInsert]
      rw [if_pos rfl]
      rfl
    · intro e he
      rcases List.mem_append.mp he with he | he
      · exact (awsKeys_ne_runner_fields (sidecar_user_env_names he)).1
      · have hw : (runnerForCreation req (generateRunnerID existing)
            now).workspace = none := hws
        rw [hw] at he
        simp only [workspaceEnv, List.not_mem_nil] at he
  · unfold CreateRunnerResult
    rw [renderPod_projected_env]
    rw [List.append_assoc]
    rw [envListToMap_append_lookup]
    · rw [envListToMap_pair]
      rw [mapLookup_mapInsert]
      rw [if_pos rfl]
      rfl
    · intro e he
      rcases List.mem_append.mp he with he | he
      · exact (awsKeys_ne_runner_fields (sidecar_user_env_names he)).2
      · have hw : (runnerForCreation req (generateRunnerID existing)
            now).workspace = none := hws
        rw [hw] at he
        simp only [workspaceEnv, List.not_mem_nil] at he
  · intro k h1 h2 h3
    unfold CreateRunnerResult
    have : (runnerForCreation req (generateRunnerID existing) now).workspace
        = none := hws
    exact (roundtrip_amended
      (runnerForCreation req (generateRunnerID existing) now) now).2.2.2
      k h1 h2 h3 this

/-- C10 amended witness: instantiated at the concrete request
`createReqEx` with no workspace and key FOO. -/
theorem create_runner_result_amended_witness :
    (CreateRunnerResult createReqEx [] defaultKubernetesConfig 0).ssh = none
    ∧ mapLookup
        (CreateRunnerResult createReqEx [] defaultKubernetesConfig 0).env
        "RUNNER_ID" = some (generateRunnerID [])
    ∧ mapLookup
        (CreateRunnerResult createReqEx [] defaultKubernetesConfig 0).env
        "FOO" = none :=
  ⟨(create_runner_result_amended createReqEx [] 0 rfl).1,
   (create_runner_result_amended createReqEx [] 0 rfl).2.1,
   (create_runner_result_amended createReqEx [] 0 rfl).2.2.2 "FOO"
     (by decide) (by decide) (by decide)⟩

end Gra
